import Mathlib

/-!
Verification of the motion-profile generator and axis protocol layer of
pylayers/measures/parker/smparker.py.

The numeric computations of `Profile.__init__` (lines 59-93) are embedded
over the rational numbers: every quantity the source computes with numpy
is an exact arithmetic expression here, so algebraic claims about the
trapezoidal velocity profile can be settled exactly.  The protocol layer
(`Axes`) is embedded as explicit state passing: the serial port is
abstracted by the strings written to it and by the response line handed
back to the parser.
-/

namespace Profile

/-- The keyword parameters of `Profile.__init__` (smparker.py lines 31-51).
`num` is the profile slot, `aa`/`ad` acceleration and deceleration (rps2),
`dstep` the distance in steps, `vmax` the cruise speed, `vs` the start
speed, `spr` steps per revolution, `N` the sample count. -/
structure Cfg where
  num : Nat
  aa : ℚ
  ad : ℚ
  dstep : ℚ
  vmax : ℚ
  vs : ℚ
  spr : ℚ
  N : Nat
deriving DecidableEq

/-- Line 59: `self.drev = self.dstep/(1.0*self.spr)`. -/
def drev (c : Cfg) : ℚ := c.dstep / c.spr

/-- Line 60: `self.T = (self.drev+self.vmax**2/self.aa)/(1.0*self.vmax)`. -/
def T (c : Cfg) : ℚ := (drev c + c.vmax ^ 2 / c.aa) / c.vmax

/-- The spacing of `np.linspace(0, T, N)` (line 71): `T/(N-1)`. -/
def step (c : Cfg) : ℚ := T c / ((c.N : ℚ) - 1)

/-- Line 71: `self.t = np.linspace(0,self.T,self.N)`, sample `i` is
`i * T/(N-1)`. -/
def t (c : Cfg) (i : Nat) : ℚ := (i : ℚ) * step c

/-- Line 80: `t1 = self.vmax/(1.0*self.aa)`, end of the acceleration phase. -/
def t1 (c : Cfg) : ℚ := c.vmax / c.aa

/-- Line 81: `t2 = self.T-self.vmax/(1.0*self.ad)`, beginning of the
deceleration phase. -/
def t2 (c : Cfg) : ℚ := T c - c.vmax / c.ad

/-- Lines 72, 83-87: `v` starts as the constant array `vmax` (line 72), the
samples with `t < t1` are overwritten with `t*aa` (lines 83, 86), and then
the samples with `t >= t2` are overwritten with `-t*ad + (vmax + ad*t2)`
(lines 84, 87).  Because the second overwrite is applied last it wins on
the overlap, which the outer `if` encodes. -/
def v (c : Cfg) (i : Nat) : ℚ :=
  if t2 c ≤ t c i then -(t c i) * c.ad + (c.vmax + c.ad * t2 c)
  else if t c i < t1 c then t c i * c.aa
  else c.vmax

/-- Line 92: `self.dr = np.cumsum(self.v)*(self.t[1]-self.t[0])`; sample `i`
of `np.cumsum(self.v)` is the sum of `v[0..i]`. -/
def dr (c : Cfg) (i : Nat) : ℚ :=
  (Finset.sum (Finset.range (i + 1)) (fun j => v c j)) * (t c 1 - t c 0)

/-- Line 93: `self.ds = self.dr*self.spr`. -/
def ds (c : Cfg) (i : Nat) : ℚ := dr c i * c.spr

/-- The array `self.t` as a list of its `N` samples. -/
def tL (c : Cfg) : List ℚ := (List.range c.N).map (t c)

/-- The array `self.v` as a list of its `N` samples. -/
def vL (c : Cfg) : List ℚ := (List.range c.N).map (v c)

/-- The array `self.dr` as a list of its `N` samples. -/
def drL (c : Cfg) : List ℚ := (List.range c.N).map (dr c)

/-- The array `self.ds` as a list of its `N` samples. -/
def dsL (c : Cfg) : List ℚ := (List.range c.N).map (ds c)

/-- Lines 66-69: the command string, the concatenation of the word PROFILE,
str(num), and the five parameters str(aa), str(ad), str(dstep), str(vmax),
str(vs) in parentheses separated by commas, for the integer-valued
parameters the source defaults to. -/
def cmd (num aa ad dstep vmax vs : Int) : String :=
  ("PROFILE") ++ toString num ++ ("(") ++ toString aa ++ (",") ++
    toString ad ++ (",") ++ toString dstep ++ (",") ++ toString vmax ++
    (",") ++ toString vs ++ (")")

end Profile

/-- The per-axis state of class `Axes` (smparker.py lines 214-254): the three
32-entry status arrays, the device id, name, scale, motion type and the
profile list. -/
structure Axes where
  status : List Nat
  usrflt : List Nat
  drvflt : List Nat
  _id : Nat
  name : String
  scale : ℚ
  typ : String
  lprofile : List Profile.Cfg
deriving DecidableEq

namespace Axes

/-- Lines 164-179: the sparse `dstatus` table (codes 1-7, 9, 11-14, 19-22). -/
def dstatus : Nat → Option String
  | 1 => some ("command processing paused")
  | 2 => some ("looping")
  | 3 => some ("wait for trigger")
  | 4 => some ("running program")
  | 5 => some ("going home")
  | 6 => some ("waiting for delay timeout")
  | 7 => some ("registration in progress")
  | 9 => some ("motor energised")
  | 11 => some ("event trigger active until trigger inputs are reset")
  | 12 => some ("input in LSEL not matching label")
  | 13 => some ("-ve limit seen during last move")
  | 14 => some ("+ve limit seen during last move")
  | 19 => some ("moving")
  | 20 => some ("stationnary")
  | 21 => some ("no registration signal seen in registration window")
  | 22 => some ("cannot stop within the defined regisration distance")
  | _ => none

/-- Lines 182-202: the sparse `dusrflt` table (codes 1-19, 22, 23). -/
def dusrflt : Nat → Option String
  | 1 => some ("value is out of range")
  | 2 => some ("incorrect command syntax")
  | 3 => some ("last label already in use")
  | 4 => some ("label of this name not defined")
  | 5 => some ("missing Z pulse when homing")
  | 6 => some ("homing failed no signal detected")
  | 7 => some ("home signal too narrow")
  | 8 => some ("drive de-energised")
  | 9 => some ("cannot related end statement to a label")
  | 10 => some ("program memory buffer full")
  | 11 => some ("no more motion profiles avaible")
  | 12 => some ("no more sequence labels avaible")
  | 13 => some ("end of travel limit hit")
  | 14 => some ("still moving")
  | 15 => some ("deceleration error")
  | 16 => some ("transmit buffer overflow")
  | 17 => some ("user program nesting overflow")
  | 18 => some ("cannot use an undefined profile")
  | 19 => some ("drive not ready")
  | 22 => some ("save error")
  | 23 => some ("command not supported by this product")
  | _ => none

/-- Lines 204-212: the `ddrvflt` table (codes 1-8). -/
def ddrvflt : Nat → Option String
  | 1 => some ("Composite Fault")
  | 2 => some ("Output stage over curent")
  | 3 => some ("Supply rail failure")
  | 4 => some ("Ambient over temperature")
  | 5 => some ("Drive over temperature")
  | 6 => some ("Configuration error")
  | 7 => some ("Motor high voltage rail failure")
  | 8 => some ("Output fault")
  | _ => none

/-- Line 298 of `Axes.com`: the string written to the serial port for a
command is str(self._id) + command + CR-LF. -/
def com (id : Nat) (command : String) : String :=
  toString id ++ command ++ ("\r\n")

/-- Lines 396-431, `Axes.add_profile`: the profile number is forced to
`len(lprofile)+1` (lines 424-425) and the profile is appended only when
the list holds fewer than 8 entries (lines 426-429); otherwise the call
returns leaving the list untouched. -/
def add_profile (l : List Profile.Cfg) (c : Profile.Cfg) : List Profile.Cfg :=
  if l.length < 8 then l ++ [{ c with num := l.length + 1 }] else l

/-- Python signed list indexing: a negative index counts from the end. -/
def pyIdx (i : Int) (n : Nat) : Int := if i < 0 then i + n else i

/-- Python `list.pop(i)`: resolve the signed index, remove that element, or
raise `IndexError` when the resolved index is out of `[0, len)`. -/
def pyPop {α : Type} (l : List α) (i : Int) : Except String (List α) :=
  if 0 ≤ pyIdx i l.length ∧ pyIdx i l.length < (l.length : Int)
  then Except.ok (l.eraseIdx (pyIdx i l.length).toNat)
  else Except.error ("IndexError")

/-- Lines 385-394, `Axes.del_profile`: `self.lprofile.pop(index-1)`. -/
def del_profile {α : Type} (l : List α) (index : Int) : Except String (List α) :=
  pyPop l (index - 1)

/-- Lines 433-437, `Axes.set_profile`: `assert(num<=len(self.lprofile))`
with message `profile number not defined`, then
`self.com` applied to str(self._id) + USE + str(num).  On success the result is the
string written to the serial port; note the command handed to `com`
already starts with the axis id, which `com` prepends again. -/
def set_profile (s : Axes) (num : Nat) : Except String String :=
  if num ≤ s.lprofile.length
  then Except.ok (com s._id (toString s._id ++ ("USE") ++ toString num))
  else Except.error ("profile number not defined")

/-- Python `int()` applied to a rational: truncation toward zero. -/
def pyInt (q : ℚ) : Int := Int.tdiv q.num q.den

/-- Lines 507-538, `Axes.mv`: `nstep = int(var*self.scale)` (line 528), the
commands `D<nstep>` (line 530) and `G` (line 531) are written, and then
line 537 evaluates the undefined name `scom2`, so the method always ends
with a `NameError` after those two writes.  The result is the list of
strings written to the serial port paired with the raised error. -/
def mv (s : Axes) (var : ℚ) : List String × Option String :=
  ([com s._id (("D") ++ toString (pyInt (var * s.scale))),
    com s._id ("G")],
   some ("NameError"))

/-- Python `eval` of a one-character string as used on the register digits:
a digit character evaluates to its value, anything else raises. -/
def evalDigit (c : Char) : Option Nat :=
  if c.isDigit then some (c.toNat - 48) else none

/-- The Python replace call that deletes each CR-LF pair: drop every
non-overlapping CR-LF pair, scanning left to right. -/
def removeCRLF : List Char → List Char
  | [] => []
  | '\r' :: '\n' :: rest => removeCRLF rest
  | c :: rest => c :: removeCRLF rest

/-- Python string split on the underscore character, over a character list,
with an accumulator for the group being built. -/
def splitUnd : List Char → List Char → List (List Char)
  | [], acc => [acc.reverse]
  | '_' :: rest, acc => acc.reverse :: splitUnd rest []
  | c :: rest, acc => splitUnd rest (c :: acc)

/-- Line 489 of `Axes.reg`: buf with every star deleted, then every CR-LF
pair deleted, then split on underscores. -/
def regGroups (line : List Char) : List (List Char) :=
  splitUnd (removeCRLF (line.filter (fun c => c != '*'))) []

/-- The digit `buf[k][l]` for the flat bit position `m = k*4+l`, evaluated
as Python does on lines 491-493; `none` when the group or character is
missing or `eval` fails. -/
def digitAt (gs : List (List Char)) (m : Nat) : Option Nat :=
  match gs.get? (m / 4) with
  | some g =>
    match g.get? (m % 4) with
    | some ch => evalDigit ch
    | none => none
  | none => none

/-- One iteration of the loop body of `Axes.reg` (lines 493-505) at bit
position `m` with digit `val`: the array selected by `ty` is updated at
index `m`, and the `Bool` reports whether the subsequent
`print <table>[m+1]` raises `KeyError` (a set bit whose code is missing
from the table). -/
def regUpdate (ty : String) (s : Axes) (m val : Nat) : Axes × Bool :=
  if ty = ("ST") then
    ({ s with status := s.status.set m val }, (val != 0) && (dstatus (m + 1)).isNone)
  else if ty = ("UF") then
    ({ s with usrflt := s.usrflt.set m val }, (val != 0) && (dusrflt (m + 1)).isNone)
  else if ty = ("DF") then
    ({ s with drvflt := s.drvflt.set m val }, (val != 0) && (ddrvflt (m + 1)).isNone)
  else (s, false)

/-- The double loop of `Axes.reg` (lines 491-505) over the flat bit
positions `k*4+l`, stopping with the raised error when a digit fails to
evaluate (or is missing) or when a set bit has no table entry. -/
def regLoop (ty : String) (dig : Nat → Option Nat) :
    List Nat → Axes → Axes × Option String
  | [], s => (s, none)
  | m :: ms, s =>
    match dig m with
    | none => (s, some ("EvalError"))
    | some val =>
      let p := regUpdate ty s m val
      if p.2 then (p.1, some ("KeyError")) else regLoop ty dig ms p.1

/-- Lines 478-505, `Axes.reg`, as a state transformer: `respLine` is the
response line `buf[1]` handed back by the serial port; the result is the
updated axis state together with the error the loop raises, if any. -/
def reg (s : Axes) (ty : String) (respLine : String) : Axes × Option String :=
  regLoop ty (digitAt (regGroups respLine.data)) (List.range 32) s

/-- Line 487 of `Axes.reg`: the two-argument call `self.com` with R and the
parenthesised category binds the category text to the `verbose` parameter
of `com`, so the command actually framed and written is just `R`. -/
def regWrite (s : Axes) (_ty : String) : String := com s._id ("R")

end Axes

/-- The `Profile()` built from the source defaults (lines 31-38). -/
def cfg0 : Profile.Cfg :=
  { num := 1, aa := 200, ad := 200, dstep := 12800, vmax := 15, vs := 0,
    spr := 4000, N := 100 }

/-- A short-travel profile: `dstep = 0` makes `t2 < t1`, so the acceleration
and deceleration windows overlap. -/
def cfgCE : Profile.Cfg :=
  { num := 1, aa := 1, ad := 1, dstep := 0, vmax := 1, vs := 0,
    spr := 1, N := 2 }

/-- Axis 1 as `Scanner.__init__` builds it (line 594): fresh status arrays,
id 1, name x, scale 12800, translation type, empty profile list. -/
def axes0 : Axes :=
  { status := List.replicate 32 0, usrflt := List.replicate 32 0,
    drvflt := List.replicate 32 0, _id := 1, name := ("x"),
    scale := 12800, typ := ("t"), lprofile := [] }

/-- Axis 1 after one profile has been stored. -/
def axes1 : Axes := { axes0 with lprofile := [cfg0] }

namespace Profile

lemma T_pos (c : Cfg) (haa : 0 < c.aa) (hv : 0 < c.vmax) (hspr : 0 < c.spr)
    (hd : 0 ≤ c.dstep) : 0 < T c := by
  unfold T drev
  apply div_pos _ hv
  have h1 : 0 ≤ c.dstep / c.spr := div_nonneg hd hspr.le
  have h2 : 0 < c.vmax ^ 2 / c.aa := div_pos (pow_pos hv 2) haa
  linarith

lemma step_nonneg (c : Cfg) (haa : 0 < c.aa) (hv : 0 < c.vmax) (hspr : 0 < c.spr)
    (hd : 0 ≤ c.dstep) (hN : 2 ≤ c.N) : 0 ≤ step c := by
  unfold step
  apply div_nonneg (T_pos c haa hv hspr hd).le
  have h2 : (2:ℚ) ≤ (c.N : ℚ) := by exact_mod_cast hN
  linarith

lemma Npred_pos (c : Cfg) (hN : 2 ≤ c.N) : 0 < (c.N : ℚ) - 1 := by
  have h2 : (2:ℚ) ≤ (c.N : ℚ) := by exact_mod_cast hN
  linarith

lemma t_nonneg (c : Cfg) (haa : 0 < c.aa) (hv : 0 < c.vmax) (hspr : 0 < c.spr)
    (hd : 0 ≤ c.dstep) (hN : 2 ≤ c.N) (i : Nat) : 0 ≤ t c i :=
  mul_nonneg (Nat.cast_nonneg i) (step_nonneg c haa hv hspr hd hN)

lemma t_mono (c : Cfg) (haa : 0 < c.aa) (hv : 0 < c.vmax) (hspr : 0 < c.spr)
    (hd : 0 ≤ c.dstep) (hN : 2 ≤ c.N) (i : Nat) : t c i ≤ t c (i + 1) := by
  unfold t
  apply mul_le_mul_of_nonneg_right _ (step_nonneg c haa hv hspr hd hN)
  push_cast
  linarith

lemma t_le_T (c : Cfg) (haa : 0 < c.aa) (hv : 0 < c.vmax) (hspr : 0 < c.spr)
    (hd : 0 ≤ c.dstep) (hN : 2 ≤ c.N) (i : Nat) (hi : i < c.N) : t c i ≤ T c := by
  have hs := step_nonneg c haa hv hspr hd hN
  have hiN : (i : ℚ) ≤ (c.N : ℚ) - 1 := by
    have : (i : ℚ) + 1 ≤ (c.N : ℚ) := by exact_mod_cast Nat.succ_le_of_lt hi
    linarith
  have key : ((c.N : ℚ) - 1) * step c = T c := by
    have hne : ((c.N : ℚ) - 1) ≠ 0 := (Npred_pos c hN).ne'
    unfold step
    rw [mul_comm]
    exact div_mul_cancel₀ _ hne
  calc t c i = (i : ℚ) * step c := rfl
    _ ≤ ((c.N : ℚ) - 1) * step c := mul_le_mul_of_nonneg_right hiN hs
    _ = T c := key

lemma v_nonneg (c : Cfg) (haa : 0 < c.aa) (had : 0 < c.ad) (hv : 0 < c.vmax)
    (hspr : 0 < c.spr) (hd : 0 ≤ c.dstep) (hN : 2 ≤ c.N) (i : Nat) (hi : i < c.N) :
    0 ≤ v c i := by
  unfold v
  split_ifs with h1 h2
  · have htT : t c i ≤ T c := t_le_T c haa hv hspr hd hN i hi
    have h3 : 0 ≤ c.ad * (T c - t c i) := mul_nonneg had.le (by linarith)
    have key : c.ad * (c.vmax / c.ad) = c.vmax := by
      field_simp
    unfold t2
    have expand : c.ad * (T c - c.vmax / c.ad) = c.ad * T c - c.vmax := by
      rw [mul_sub, key]
    nlinarith [h3]
  · exact mul_nonneg (t_nonneg c haa hv hspr hd hN i) haa.le
  · exact hv.le

lemma dt_eq_step (c : Cfg) : t c 1 - t c 0 = step c := by
  simp [t]

end Profile

/-- The frame of one `reg` call with category `ty`: the identity fields and
profile list of the axis are untouched, and each category touches only its
own bit array. -/
def frameOf (ty : String) (s0 s1 : Axes) : Prop :=
  (s1._id = s0._id ∧ s1.name = s0.name ∧ s1.scale = s0.scale ∧
    s1.typ = s0.typ ∧ s1.lprofile = s0.lprofile) ∧
  (ty = ("ST") → s1.usrflt = s0.usrflt ∧ s1.drvflt = s0.drvflt) ∧
  (ty = ("UF") → s1.status = s0.status ∧ s1.drvflt = s0.drvflt) ∧
  (ty = ("DF") → s1.status = s0.status ∧ s1.usrflt = s0.usrflt)

lemma frameOf_refl (ty : String) (s : Axes) : frameOf ty s s :=
  ⟨⟨rfl, rfl, rfl, rfl, rfl⟩, fun _ => ⟨rfl, rfl⟩, fun _ => ⟨rfl, rfl⟩,
    fun _ => ⟨rfl, rfl⟩⟩

lemma frameOf_trans (ty : String) {a b c : Axes} (h1 : frameOf ty a b)
    (h2 : frameOf ty b c) : frameOf ty a c :=
  ⟨⟨h2.1.1.trans h1.1.1, h2.1.2.1.trans h1.1.2.1,
    h2.1.2.2.1.trans h1.1.2.2.1, h2.1.2.2.2.1.trans h1.1.2.2.2.1,
    h2.1.2.2.2.2.trans h1.1.2.2.2.2⟩,
   fun he => ⟨((h2.2.1 he).1).trans ((h1.2.1 he).1),
     ((h2.2.1 he).2).trans ((h1.2.1 he).2)⟩,
   fun he => ⟨((h2.2.2.1 he).1).trans ((h1.2.2.1 he).1),
     ((h2.2.2.1 he).2).trans ((h1.2.2.1 he).2)⟩,
   fun he => ⟨((h2.2.2.2 he).1).trans ((h1.2.2.2 he).1),
     ((h2.2.2.2 he).2).trans ((h1.2.2.2 he).2)⟩⟩

lemma regUpdate_frame (ty : String) (s : Axes) (m val : Nat) :
    frameOf ty s (Axes.regUpdate ty s m val).1 := by
  unfold Axes.regUpdate frameOf
  split_ifs with h1 h2 h3 <;>
    refine ⟨⟨rfl, rfl, rfl, rfl, rfl⟩, ?_, ?_, ?_⟩ <;> intro he <;>
    first
      | exact ⟨rfl, rfl⟩
      | exact absurd he h1
      | exact absurd he h2
      | exact absurd he h3
      | exact absurd (he.symm.trans h1) (by decide)
      | exact absurd (he.symm.trans h2) (by decide)

lemma regLoop_frame (ty : String) (dig : Nat → Option Nat) (ms : List Nat) :
    ∀ s : Axes, frameOf ty s (Axes.regLoop ty dig ms s).1 := by
  induction ms with
  | nil =>
    intro s
    exact frameOf_refl ty s
  | cons m ms ih =>
    intro s
    unfold Axes.regLoop
    cases hdm : dig m with
    | none => exact frameOf_refl ty s
    | some val =>
      simp only []
      by_cases hp : (Axes.regUpdate ty s m val).2 = true
      · simp only [hp, if_true]
        exact regUpdate_frame ty s m val
      · simp only [hp, if_false]
        exact frameOf_trans ty (regUpdate_frame ty s m val)
          (ih (Axes.regUpdate ty s m val).1)

/-- Claim C1, amended: for every Profile with `aa>0`, `ad>0`, `spr>0`,
`vmax>0`, `N>=2` (and the data-model constraint `dstep>=0`), the arrays
`t`, `v`, `dr`, `ds` all have length `N`, `t` is monotonically
non-decreasing, and `v[i] = aa*t[i]` for every `i` with `t[i] < t1` and
`t[i] < t2` (on the overlap `t2 <= t[i] < t1` the deceleration overwrite
wins, so the unconditional original claim fails). -/
theorem c1_profile_arrays (c : Profile.Cfg) (haa : 0 < c.aa) (had : 0 < c.ad)
    (hspr : 0 < c.spr) (hv : 0 < c.vmax) (hN : 2 ≤ c.N) (hd : 0 ≤ c.dstep) :
    ((Profile.tL c).length = c.N ∧ (Profile.vL c).length = c.N ∧
      (Profile.drL c).length = c.N ∧ (Profile.dsL c).length = c.N) ∧
    (∀ i, i + 1 < c.N → Profile.t c i ≤ Profile.t c (i + 1)) ∧
    (∀ i, Profile.t c i < Profile.t1 c → Profile.t c i < Profile.t2 c →
      Profile.v c i = c.aa * Profile.t c i) := by
  refine ⟨⟨?_, ?_, ?_, ?_⟩, ?_, ?_⟩
  · simp [Profile.tL]
  · simp [Profile.vL]
  · simp [Profile.drL]
  · simp [Profile.dsL]
  · intro i _
    exact Profile.t_mono c haa hv hspr hd hN i
  · intro i h1 h2
    unfold Profile.v
    rw [if_neg (not_le.mpr h2), if_pos h1, mul_comm]

/-- Claim C1, counterexample: the short-travel profile `cfgCE`
(`aa=ad=spr=vmax=1`, `dstep=0`, `N=2`) satisfies every hypothesis of the
claim, its sample `t[0]=0` lies in the acceleration window `t[0] < t1`,
yet `v[0] = 1`, not `aa*t[0] = 0`: the deceleration overwrite has already
claimed it because `t2 = 0 <= t[0]`. -/
theorem c1_counterexample :
    (0 < cfgCE.aa ∧ 0 < cfgCE.ad ∧ 0 < cfgCE.spr ∧ 0 < cfgCE.vmax ∧
      2 ≤ cfgCE.N ∧ 0 ≤ cfgCE.dstep) ∧
    Profile.t cfgCE 0 < Profile.t1 cfgCE ∧
    Profile.v cfgCE 0 ≠ cfgCE.aa * Profile.t cfgCE 0 := by
  refine ⟨⟨?_, ?_, ?_, ?_, ?_, ?_⟩, ?_, ?_⟩ <;>
    norm_num [cfgCE, Profile.v, Profile.t, Profile.t1, Profile.t2,
      Profile.step, Profile.T, Profile.drev]

/-- Claim C1, witness: the default profile `cfg0` satisfies the hypotheses,
and at sample 0 both the monotone step and the acceleration-ramp value are
obtained from the theorem. -/
theorem c1_witness :
    (Profile.tL cfg0).length = cfg0.N ∧ Profile.t cfg0 0 ≤ Profile.t cfg0 1 ∧
    Profile.v cfg0 0 = cfg0.aa * Profile.t cfg0 0 := by
  have h := c1_profile_arrays cfg0 (by norm_num [cfg0]) (by norm_num [cfg0])
    (by norm_num [cfg0]) (by norm_num [cfg0]) (by norm_num [cfg0])
    (by norm_num [cfg0])
  refine ⟨h.1.1, h.2.1 0 (by norm_num [cfg0]), h.2.2 0 ?_ ?_⟩ <;>
    norm_num [cfg0, Profile.t, Profile.t1, Profile.t2, Profile.step,
      Profile.T, Profile.drev]

/-- Claim C2: the velocity array is built by a constant `vmax` fill, then
the `t < t1` overwrite, then the `t >= t2` overwrite, so on the overlap
`t2 <= t[i] < t1` the sample holds the deceleration value
`-ad*t[i] + (vmax + ad*t2)`. -/
theorem c2_overlap_decel (c : Profile.Cfg) (i : Nat)
    (h2 : Profile.t2 c ≤ Profile.t c i) (h1 : Profile.t c i < Profile.t1 c) :
    Profile.v c i = -(Profile.t c i) * c.ad + (c.vmax + c.ad * Profile.t2 c) := by
  unfold Profile.v
  rw [if_pos h2]

/-- Claim C2, witness: at `cfgCE` the sample `t[0]=0` lies in the overlap
(`t2 = 0 <= 0 < 1 = t1`) and the theorem yields its deceleration value. -/
theorem c2_witness :
    Profile.v cfgCE 0 =
      -(Profile.t cfgCE 0) * cfgCE.ad + (cfgCE.vmax + cfgCE.ad * Profile.t2 cfgCE) :=
  c2_overlap_decel cfgCE 0
    (by norm_num [cfgCE, Profile.t, Profile.t2, Profile.step, Profile.T,
      Profile.drev])
    (by norm_num [cfgCE, Profile.t, Profile.t1, Profile.step, Profile.T,
      Profile.drev])

/-- Claim C8: for every Profile with `aa>0`, `ad>0`, `spr>0`, `vmax>0`,
`N>=2` (and `dstep>=0`), every velocity sample is non-negative and the
cumulative step array `ds` is monotonically non-decreasing. -/
theorem c8_ds_monotone (c : Profile.Cfg) (haa : 0 < c.aa) (had : 0 < c.ad)
    (hspr : 0 < c.spr) (hv : 0 < c.vmax) (hN : 2 ≤ c.N) (hd : 0 ≤ c.dstep) :
    (∀ i, i < c.N → 0 ≤ Profile.v c i) ∧
    (∀ i, i + 1 < c.N → Profile.ds c i ≤ Profile.ds c (i + 1)) := by
  constructor
  · intro i hi
    exact Profile.v_nonneg c haa had hv hspr hd hN i hi
  · intro i hi
    have hvp : 0 ≤ Profile.v c (i + 1) :=
      Profile.v_nonneg c haa had hv hspr hd hN (i + 1) hi
    have hs := Profile.step_nonneg c haa hv hspr hd hN
    have hdiff : Profile.ds c (i + 1) - Profile.ds c i =
        Profile.v c (i + 1) * Profile.step c * c.spr := by
      unfold Profile.ds Profile.dr
      rw [Finset.sum_range_succ, Profile.dt_eq_step]
      ring
    have hprod : 0 ≤ Profile.v c (i + 1) * Profile.step c * c.spr :=
      mul_nonneg (mul_nonneg hvp hs) hspr.le
    linarith

/-- Claim C8, witness: the default profile `cfg0` satisfies the hypotheses
and the theorem yields `0 <= v[0]` and `ds[0] <= ds[1]`. -/
theorem c8_witness :
    0 ≤ Profile.v cfg0 0 ∧ Profile.ds cfg0 0 ≤ Profile.ds cfg0 1 := by
  have h := c8_ds_monotone cfg0 (by norm_num [cfg0]) (by norm_num [cfg0])
    (by norm_num [cfg0]) (by norm_num [cfg0]) (by norm_num [cfg0])
    (by norm_num [cfg0])
  exact ⟨h.1 0 (by norm_num [cfg0]), h.2 0 (by norm_num [cfg0])⟩

/-- Claim C3: the wire command string built on lines 66-69 is the literal
concatenation `PROFILE<num>(<aa>,<ad>,<dstep>,<vmax>,<vs>)`, and for the
default parameters it is exactly `PROFILE1(200,200,12800,15,0)`. -/
theorem c3_cmd_string :
    (∀ num aa ad dstep vmax vs : Int,
      Profile.cmd num aa ad dstep vmax vs =
        ("PROFILE") ++ toString num ++ ("(") ++ toString aa ++ (",") ++
          toString ad ++ (",") ++ toString dstep ++ (",") ++ toString vmax ++
          (",") ++ toString vs ++ (")")) ∧
    Profile.cmd 1 200 200 12800 15 0 = ("PROFILE1(200,200,12800,15,0)") :=
  ⟨fun _ _ _ _ _ _ => rfl, by decide⟩

/-- Claim C4: `add_profile` forces the new profile number to
`len(lprofile)+1` whatever the caller supplied, appends only below the
8-entry limit, silently leaves a full list unchanged, and consequently any
sequence of calls starting from a fresh axis never grows the list past 8. -/
theorem c4_add_profile_bound :
    (∀ (l : List Profile.Cfg) (c : Profile.Cfg), l.length < 8 →
      Axes.add_profile l c = l ++ [{ c with num := l.length + 1 }]) ∧
    (∀ (l : List Profile.Cfg) (c : Profile.Cfg), 8 ≤ l.length →
      Axes.add_profile l c = l) ∧
    (∀ (l : List Profile.Cfg) (c : Profile.Cfg), l.length ≤ 8 →
      (Axes.add_profile l c).length ≤ 8) ∧
    (∀ cs : List Profile.Cfg, (List.foldl Axes.add_profile [] cs).length ≤ 8) := by
  have hstep : ∀ (l : List Profile.Cfg) (c : Profile.Cfg), l.length ≤ 8 →
      (Axes.add_profile l c).length ≤ 8 := by
    intro l c hl
    unfold Axes.add_profile
    split_ifs with h
    · simp
      omega
    · exact hl
  refine ⟨?_, ?_, hstep, ?_⟩
  · intro l c h
    unfold Axes.add_profile
    rw [if_pos h]
  · intro l c h
    unfold Axes.add_profile
    rw [if_neg (by omega)]
  · intro cs
    have general : ∀ (cs : List Profile.Cfg) (l : List Profile.Cfg),
        l.length ≤ 8 → (List.foldl Axes.add_profile l cs).length ≤ 8 := by
      intro cs
      induction cs with
      | nil => intro l hl; simpa using hl
      | cons c cs ih =>
        intro l hl
        simpa using ih (Axes.add_profile l c) (hstep l c hl)
    exact general cs [] (by simp)

/-- Claim C4, witness: applying the theorem at a one-call and a nine-call
instance: the first call appends slot 1, and nine calls on a fresh axis
leave at most 8 profiles. -/
theorem c4_witness :
    Axes.add_profile ([] : List Profile.Cfg) cfg0 =
      ([] : List Profile.Cfg) ++
        [{ cfg0 with num := ([] : List Profile.Cfg).length + 1 }] ∧
    (List.foldl Axes.add_profile [] (List.replicate 9 cfg0)).length ≤ 8 :=
  ⟨c4_add_profile_bound.1 [] cfg0 (by decide),
   c4_add_profile_bound.2.2.2 (List.replicate 9 cfg0)⟩

/-- Claim C5, amended: `set_profile(num)` fails with the assertion message
`profile number not defined` exactly when `num > len(lprofile)`, and on
success it writes the single string `<id><id>USE<num>\r\n`: the command
handed to `com` already carries the axis id (line 437), and `com` prepends
it again (line 298), so the id appears twice, not once as the claim
states. -/
theorem c5_set_profile (s : Axes) (num : Nat) :
    (Axes.set_profile s num = Except.error ("profile number not defined") ↔
      s.lprofile.length < num) ∧
    (num ≤ s.lprofile.length →
      Axes.set_profile s num =
        Except.ok (toString s._id ++ (toString s._id ++ ("USE") ++ toString num)
          ++ ("\r\n"))) := by
  constructor
  · unfold Axes.set_profile
    split_ifs with h
    · constructor
      · intro he
        exact absurd he (by simp)
      · intro hlt
        omega
    · constructor
      · intro _
        omega
      · intro _
        rfl
  · intro h
    unfold Axes.set_profile
    rw [if_pos h]
    rfl

/-- Claim C5, counterexample: on axis 1 holding one profile,
`set_profile(1)` succeeds but writes `11USE1\r\n` (axis id doubled), not
the `1USE1\r\n` the claim predicts. -/
theorem c5_counterexample :
    Axes.set_profile axes1 1 = Except.ok ("11USE1\r\n") ∧
    ("11USE1\r\n" : String) ≠ ("1USE1\r\n") :=
  ⟨rfl, by decide⟩

/-- Claim C5, witness: the theorem applied to axis 1 with one stored
profile and slot 1. -/
theorem c5_witness :
    Axes.set_profile axes1 1 =
      Except.ok (toString axes1._id ++ (toString axes1._id ++ ("USE") ++
        toString 1) ++ ("\r\n")) :=
  (c5_set_profile axes1 1).2 (by decide)

/-- Claim C6: `mv(10)` on axis 1 with scale 12800 writes exactly the two
framed commands `1D128000\r\n` and `1G\r\n`, but then always raises
`NameError` (lines 537-538 reference the undefined `scom2`/`scom3`), so
the call does not complete without error as the claim states. -/
theorem c6_mv_behavior :
    (Axes.mv axes0 10).1 = [("1D128000\r\n"), ("1G\r\n")] ∧
    (Axes.mv axes0 10).2 = some ("NameError") := by
  have h : (10 : ℚ) * axes0.scale = 128000 := by
    norm_num [axes0]
  constructor
  · simp only [Axes.mv]
    rw [h]
    rfl
  · rfl

/-- Claim C7, code evaluation at the failing input: `reg` with category ST
writes only `1R` plus CR-LF (the parenthesised category argument lands in
the `verbose` parameter of `com`, line 487), not the framed `R(ST)` the
claim states; and on the response
line `*0000_0000_0000_0000_0000_0000_0000_0001*\r\n` it does set
`status[31]=1` with every other entry 0, but then raises `KeyError`
because `Axes.dstatus[32]` has no entry, instead of producing no output. -/
theorem c7_reg_behavior :
    Axes.regWrite axes0 ("ST") = ("1R\r\n") ∧
    Axes.regWrite axes0 ("ST") ≠ ("1R(ST)\r\n") ∧
    (Axes.reg axes0 ("ST") ("*0000_0000_0000_0000_0000_0000_0000_0001*\r\n")).1.status
      = List.replicate 31 0 ++ [1] ∧
    (Axes.reg axes0 ("ST") ("*0000_0000_0000_0000_0000_0000_0000_0001*\r\n")).2
      = some ("KeyError") ∧
    Axes.dstatus 32 = none :=
  ⟨rfl, by decide, by decide, rfl, rfl⟩

/-- Claim C9, amended: `del_profile(index)` removes the profile at 1-based
position `index` when `1 <= index <= len`; but because Python `pop`
accepts negative indices, for `1-len <= index <= 0` it removes the profile
at position `index+len` instead of raising, and `IndexError` is raised
exactly when `index > len` or `index <= -len`. -/
theorem c9_del_profile :
    (∀ (l : List Profile.Cfg) (index : Int), 1 ≤ index → index ≤ (l.length : Int) →
      Axes.del_profile l index = Except.ok (l.eraseIdx (index - 1).toNat)) ∧
    (∀ (l : List Profile.Cfg) (index : Int),
      1 - (l.length : Int) ≤ index → index ≤ 0 →
      Axes.del_profile l index =
        Except.ok (l.eraseIdx (index - 1 + (l.length : Int)).toNat)) ∧
    (∀ (l : List Profile.Cfg) (index : Int),
      Axes.del_profile l index = Except.error ("IndexError") ↔
        ((l.length : Int) < index ∨ index ≤ -(l.length : Int))) := by
  refine ⟨?_, ?_, ?_⟩
  · intro l index h1 h2
    unfold Axes.del_profile Axes.pyPop Axes.pyIdx
    rw [if_neg (by omega : ¬(index - 1 < 0))]
    rw [if_pos ⟨by omega, by omega⟩]
  · intro l index h1 h2
    unfold Axes.del_profile Axes.pyPop Axes.pyIdx
    rw [if_pos (by omega : index - 1 < 0)]
    rw [if_pos ⟨by omega, by omega⟩]
  · intro l index
    unfold Axes.del_profile Axes.pyPop Axes.pyIdx
    split_ifs with h1 h2 h3 <;> simp <;> omega

/-- Claim C9, counterexample: `del_profile(0)` on an axis holding one
profile does not raise `IndexError` even though 0 is outside the 1-based
range; `pop(-1)` removes the last profile instead. -/
theorem c9_counterexample :
    Axes.del_profile ([cfg0] : List Profile.Cfg) 0 =
      Except.ok ([] : List Profile.Cfg) ∧
    Axes.del_profile ([cfg0] : List Profile.Cfg) 0 ≠
      Except.error ("IndexError") := by
  refine ⟨rfl, fun h => ?_⟩
  exact Except.noConfusion
    ((rfl : Axes.del_profile ([cfg0] : List Profile.Cfg) 0 =
      Except.ok ([] : List Profile.Cfg)).symm.trans h)

/-- Claim C9, witness: deleting slot 2 of a two-profile axis removes
exactly the second profile. -/
theorem c9_witness :
    Axes.del_profile ([cfg0, cfgCE] : List Profile.Cfg) 2 =
      Except.ok ([cfg0, cfgCE].eraseIdx ((2 : Int) - 1).toNat) :=
  c9_del_profile.1 [cfg0, cfgCE] 2 (by decide) (by decide)

/-- Claim C10: a `reg(typ)` call modifies at most the one status array its
category selects; the other two arrays and the axis id, name, scale,
motion type and profile list are left unchanged, whatever the response
line contains and wherever the loop stops. -/
theorem c10_reg_frame (ty line : String) (s : Axes) :
    ((Axes.reg s ty line).1._id = s._id ∧
      (Axes.reg s ty line).1.name = s.name ∧
      (Axes.reg s ty line).1.scale = s.scale ∧
      (Axes.reg s ty line).1.typ = s.typ ∧
      (Axes.reg s ty line).1.lprofile = s.lprofile) ∧
    (ty = ("ST") → (Axes.reg s ty line).1.usrflt = s.usrflt ∧
      (Axes.reg s ty line).1.drvflt = s.drvflt) ∧
    (ty = ("UF") → (Axes.reg s ty line).1.status = s.status ∧
      (Axes.reg s ty line).1.drvflt = s.drvflt) ∧
    (ty = ("DF") → (Axes.reg s ty line).1.status = s.status ∧
      (Axes.reg s ty line).1.usrflt = s.usrflt) :=
  regLoop_frame ty (Axes.digitAt (Axes.regGroups line.data)) (List.range 32) s

/-- Claim C10, witness: a `reg` call with category ST and the all-zero response line
leaves the profile list and the two non-selected arrays of axis 1 exactly
as they were. -/
theorem c10_witness :
    (Axes.reg axes0 ("ST")
      ("*0000_0000_0000_0000_0000_0000_0000_0000*\r\n")).1.lprofile
      = axes0.lprofile ∧
    (Axes.reg axes0 ("ST")
      ("*0000_0000_0000_0000_0000_0000_0000_0000*\r\n")).1.usrflt
      = axes0.usrflt ∧
    (Axes.reg axes0 ("ST")
      ("*0000_0000_0000_0000_0000_0000_0000_0000*\r\n")).1.drvflt
      = axes0.drvflt := by
  have h := c10_reg_frame ("ST")
    ("*0000_0000_0000_0000_0000_0000_0000_0000*\r\n") axes0
  exact ⟨h.1.2.2.2.2, (h.2.1 rfl).1, (h.2.1 rfl).2⟩
